import Mathlib

/-!
Verification development for the fact-back repository: a shallow embedding
of the Users, Auth, Expense and Invoice modules (NestJS services and
controllers over a Mongo document store), together with theorems checking
the natural-language specification against the code.

The document store is modelled as a Lean list of records; `async` methods
that throw HTTP exceptions become functions into `Except HttpError`.
An `Except.error` result corresponds to an exception thrown before any
`save`/`findByIdAndUpdate`/`findByIdAndDelete` call, so it leaves the
store unmodified; where the spec claims "the store is unchanged" this is
made explicit via `resultingStore`.
-/

/-- The standard HTTP exception types used by the services
(`BadRequestException`, `NotFoundException`, `ForbiddenException`,
`UnauthorizedException`), each carrying its message. -/
inductive HttpError where
  | badRequest (msg : String)
  | notFound (msg : String)
  | forbidden (msg : String)
  | unauthorized (msg : String)
deriving DecidableEq, Repr

/-- `UserRole` enum from `user-role.enum.ts` (values as used across the
controllers and services). -/
inductive UserRole where
  | ADMIN
  | ADMIN2
  | USER
  | COMPANY
  | PROVIDER
  | ACCOUNTING
  | TREASURY
  | COLABORADOR
deriving DecidableEq, Repr

/-- JavaScript truthiness of an optional string field: `undefined`/`null`
and the empty string are falsy, every other string is truthy. -/
def truthy : Option String → Bool
  | none => false
  | some s => s != ""

/-- Model of the `bcrypt.hash(pw, cost)` library call: a tagged string
distinct from every plaintext password (a real bcrypt digest has the
`$2b$cost$` prefix followed by salt and digest; the salt is irrelevant to
the control flow of this repository, so the model keeps the prefix and the
identity of the hashed password). -/
def bcrypt.hash (pw : String) (cost : Nat) : String :=
  "$2b$" ++ toString cost ++ "$" ++ pw

/-- Model of `bcrypt.compare(pw, stored)`: succeeds exactly when `stored`
is the hash of `pw` (the repository always hashes with cost 10). -/
def bcrypt.compare (pw stored : String) : Bool :=
  stored == bcrypt.hash pw 10

/-- Mongo `Types.ObjectId`: a 12-byte value, rendered as 24 hex chars. -/
structure ObjectId where
  val : Nat
deriving DecidableEq, Repr

/-- Hex digit character for a value below 16. -/
def hexChar (n : Nat) : Char :=
  if n < 10 then Char.ofNat (48 + n) else Char.ofNat (87 + n)

/-- `k` hex digits of `n`, most significant first. -/
def hexChars : Nat → Nat → List Char
  | 0, _ => []
  | k + 1, n => hexChars k (n / 16) ++ [hexChar (n % 16)]

/-- `Types.ObjectId#toString()`: the 24-character hex rendering. -/
def ObjectId.toStr (o : ObjectId) : String :=
  String.mk (hexChars 24 o.val)

/-- A persisted user document (`User` entity): `_id`, names, email,
(stored, hashed) password, role, optional companyId, isActive. -/
structure UserDocument where
  _id : String
  firstName : String
  lastName : String
  email : String
  password : String
  role : UserRole
  companyId : Option String
  isActive : Bool
deriving DecidableEq, Repr

/-- `CreateUserDto`: the payload accepted by `UsersService.create`. -/
structure CreateUserDto where
  firstName : String
  lastName : String
  email : String
  password : String
  role : UserRole
  companyId : Option String
  isActive : Bool
  userId : Option String
deriving DecidableEq, Repr

/-- `UpdateUserDto`: a partial user patch, every field optional. -/
structure UpdateUserDto where
  firstName : Option String := none
  lastName : Option String := none
  email : Option String := none
  password : Option String := none
  role : Option UserRole := none
  companyId : Option String := none
  isActive : Option Bool := none
deriving DecidableEq, Repr

/-- The user collection (`userModel`). -/
abbrev UserStore := List UserDocument

/-- `findByIdAndUpdate(id, \x7b $set: dto \x7d)`: fields present in the
patch replace the stored ones, absent fields are kept. -/
def applyUpdate (u : UserDocument) (d : UpdateUserDto) : UserDocument :=
  { u with
    firstName := d.firstName.getD u.firstName
    lastName := d.lastName.getD u.lastName
    email := d.email.getD u.email
    password := d.password.getD u.password
    role := d.role.getD u.role
    companyId := match d.companyId with
      | some c => some c
      | none => u.companyId
    isActive := d.isActive.getD u.isActive }

/-- The store an operation leaves behind: the new store on success, the
old one when an exception was thrown (all throws in the source happen
before any write). -/
def resultingStore (store : UserStore)
    (r : Except HttpError (UserStore × UserDocument)) : UserStore :=
  match r with
  | .ok (s, _) => s
  | .error _ => store

namespace UsersService

/-- `UsersService.create` (plain variant): reject duplicate email, require
companyId for COMPANY role, hash the password with bcrypt cost 10,
normalise a falsy companyId to null, then save. `freshId` stands for the
`_id` Mongo assigns on save. Returns the new store and the saved record. -/
def create (store : UserStore) (dto : CreateUserDto) (freshId : String) :
    Except HttpError (UserStore × UserDocument) :=
  if (store.find? (fun u => u.email == dto.email)).isSome then
    .error (.badRequest "El email ya está registrado")
  else if dto.role == UserRole.COMPANY && !truthy dto.companyId then
    .error (.badRequest "Se requiere companyId para usuarios de tipo COMPANY")
  else
    let hashedPassword := bcrypt.hash dto.password 10
    let created : UserDocument :=
      { _id := freshId
        firstName := dto.firstName
        lastName := dto.lastName
        email := dto.email
        password := hashedPassword
        role := dto.role
        companyId := if truthy dto.companyId then dto.companyId else none
        isActive := dto.isActive }
    .ok (store ++ [created], created)

/-- `UsersService.findOne` (plain variant): `findById`, 404 when absent. -/
def findOne (store : UserStore) (id : String) :
    Except HttpError UserDocument :=
  match store.find? (fun u => u._id == id) with
  | none => .error (.notFound ("Usuario con ID " ++ id ++ " no encontrado"))
  | some user => .ok user

/-- `UsersService.findByEmail`: `findOne(\x7b email \x7d)`, 404 when absent. -/
def findByEmail (store : UserStore) (email : String) :
    Except HttpError UserDocument :=
  match store.find? (fun u => u.email == email) with
  | none =>
      .error (.notFound ("Usuario con email " ++ email ++ " no encontrado"))
  | some user => .ok user

/-- `UsersService.update` (plain variant): 404 when the id is absent,
companyId required when the patch sets role COMPANY, a truthy patch
password is re-hashed, then `$set` with the (possibly rewritten) patch.
Returns the new store and the updated record. -/
def update (store : UserStore) (id : String) (dto : UpdateUserDto) :
    Except HttpError (UserStore × UserDocument) :=
  match store.find? (fun u => u._id == id) with
  | none => .error (.notFound ("Usuario con ID " ++ id ++ " no encontrado"))
  | some user =>
    if dto.role == some UserRole.COMPANY && !truthy dto.companyId then
      .error
        (.badRequest "Se requiere companyId para usuarios de tipo COMPANY")
    else
      let dto :=
        if truthy dto.password then
          { dto with
            password := some (bcrypt.hash (dto.password.getD "") 10) }
        else dto
      .ok
        (store.map (fun u => if u._id == id then applyUpdate u dto else u),
         applyUpdate user dto)

/-- `UsersService.remove` (plain variant): `findByIdAndDelete`, 404 when
the id is absent. Returns the new store. -/
def remove (store : UserStore) (id : String) :
    Except HttpError UserStore :=
  match store.find? (fun u => u._id == id) with
  | none => .error (.notFound ("Usuario con ID " ++ id ++ " no encontrado"))
  | some _ => .ok (store.filter (fun u => !(u._id == id)))

end UsersService

/-- The `currentUser?.role === UserRole.COMPANY && user.companyId !==
currentUser.companyId` guard shared by the company-aware `UsersService`
variant: true exactly when a COMPANY caller targets a user of another
company (an absent `currentUser` makes the optional chain falsy). -/
def companyViolation (currentUser : Option UserDocument)
    (user : UserDocument) : Bool :=
  match currentUser with
  | some cu => cu.role == UserRole.COMPANY && user.companyId != cu.companyId
  | none => false

namespace UsersServiceV2

/-- Company-aware `UsersService.findOne`: `findById` (404 when absent),
then 403 when a COMPANY caller targets a user of another company. -/
def findOne (store : UserStore) (id : String)
    (currentUser : Option UserDocument) : Except HttpError UserDocument :=
  match store.find? (fun u => u._id == id) with
  | none => .error (.notFound ("Usuario con ID " ++ id ++ " no encontrado"))
  | some user =>
    if companyViolation currentUser user then
      .error (.forbidden "You can only view users from your company")
    else .ok user

/-- Company-aware `UsersService.update`: delegates the lookup (and first
company check) to `findOne`, repeats the company check, forbids a COMPANY
caller assigning ADMIN, requires companyId when the patch sets role
COMPANY, re-hashes a truthy patch password, then `$set`. -/
def update (store : UserStore) (id : String) (dto : UpdateUserDto)
    (currentUser : Option UserDocument) :
    Except HttpError (UserStore × UserDocument) :=
  match findOne store id currentUser with
  | .error e => .error e
  | .ok user =>
    if companyViolation currentUser user then
      .error (.forbidden "You can only update users from your company")
    else if (currentUser.map (fun cu => cu.role)) == some UserRole.COMPANY
        && dto.role == some UserRole.ADMIN then
      .error (.forbidden "You cannot assign the ADMIN role")
    else if dto.role == some UserRole.COMPANY && !truthy dto.companyId then
      .error
        (.badRequest "Se requiere companyId para usuarios de tipo COMPANY")
    else
      let dto :=
        if truthy dto.password then
          { dto with
            password := some (bcrypt.hash (dto.password.getD "") 10) }
        else dto
      .ok
        (store.map (fun u => if u._id == id then applyUpdate u dto else u),
         applyUpdate user dto)

/-- Company-aware `UsersService.remove`: delegates the lookup (and first
company check) to `findOne`, repeats the company check, then
`findByIdAndDelete` with a 404 on a null result. -/
def remove (store : UserStore) (id : String)
    (currentUser : Option UserDocument) : Except HttpError UserStore :=
  match findOne store id currentUser with
  | .error e => .error e
  | .ok user =>
    if companyViolation currentUser user then
      .error (.forbidden "You can only delete users from your company")
    else
      match store.find? (fun u => u._id == id) with
      | none =>
          .error (.notFound ("Usuario con ID " ++ id ++ " no encontrado"))
      | some _ => .ok (store.filter (fun u => !(u._id == id)))

end UsersServiceV2

/-- A persisted provider document (`Provider` entity): the fields the
auth module reads from it (email, stored password, names, role, optional
companyId, isActive). -/
structure ProviderDocument where
  _id : String
  firstName : String
  lastName : String
  email : String
  password : String
  role : UserRole
  companyId : Option String
  isActive : Bool
deriving DecidableEq, Repr

/-- The result of `validateUser`: a user document or a provider document. -/
inductive Account where
  | user (u : UserDocument)
  | provider (p : ProviderDocument)
deriving DecidableEq, Repr

/-- `isActive` of either kind of account. -/
def Account.isActive : Account → Bool
  | .user u => u.isActive
  | .provider p => p.isActive

/-- The JWT payload built by `AuthService.generateToken`. -/
structure JwtPayload where
  sub : String
  email : String
  role : UserRole
  firstName : String
  lastName : String
  companyId : Option String
deriving DecidableEq, Repr

/-- A user/provider response with the password stripped
(`const \x7b password, ...userResponse \x7d = user.toObject()`). -/
structure UserResponse where
  _id : String
  firstName : String
  lastName : String
  email : String
  role : UserRole
  companyId : Option String
  isActive : Bool
deriving DecidableEq, Repr

/-- Strip the password off an account. -/
def Account.toResponse : Account → UserResponse
  | .user u =>
    { _id := u._id, firstName := u.firstName, lastName := u.lastName
      email := u.email, role := u.role, companyId := u.companyId
      isActive := u.isActive }
  | .provider p =>
    { _id := p._id, firstName := p.firstName, lastName := p.lastName
      email := p.email, role := p.role, companyId := p.companyId
      isActive := p.isActive }

/-- `RegisterDto` as consumed by `AuthService.register`. -/
structure RegisterDto where
  firstName : String
  lastName : String
  email : String
  password : String
  role : UserRole
  companyId : Option String
deriving DecidableEq, Repr

/-- `LoginDto`: email and password. -/
structure LoginDto where
  email : String
  password : String
deriving DecidableEq, Repr

/-- The two collections the auth service injects: users and providers. -/
structure AuthState where
  users : List UserDocument
  providers : List ProviderDocument
deriving DecidableEq, Repr

namespace AuthService

/-- `AuthService.generateToken`: build the JWT payload from the account
(`sub` is the document id; `companyId` is stringified when truthy, null
otherwise). The signing step is modelled as the payload itself. -/
def generateToken : Account → JwtPayload
  | .user u =>
    { sub := u._id, email := u.email, role := u.role
      firstName := u.firstName, lastName := u.lastName
      companyId := if truthy u.companyId then u.companyId else none }
  | .provider p =>
    { sub := p._id, email := p.email, role := p.role
      firstName := p.firstName, lastName := p.lastName
      companyId := if truthy p.companyId then p.companyId else none }

/-- `AuthService.validateUser`: look the email up among users first; on a
hit the password decides between that user and null. Only when no user
has the email are providers consulted, with the same password check. -/
def validateUser (st : AuthState) (email password : String) :
    Option Account :=
  match st.users.find? (fun u => u.email == email) with
  | some user =>
    if bcrypt.compare password user.password then some (.user user)
    else none
  | none =>
    match st.providers.find? (fun p => p.email == email) with
    | some provider =>
      if bcrypt.compare password provider.password then
        some (.provider provider)
      else none
    | none => none

/-- The success payload of `AuthService.login`. -/
structure LoginResult where
  success : Bool
  user : UserResponse
  token : JwtPayload
deriving DecidableEq, Repr

/-- `AuthService.login`: 401 when `validateUser` yields null, 403 when
the account is inactive, otherwise success with the stripped account and
a token. -/
def login (st : AuthState) (dto : LoginDto) :
    Except HttpError LoginResult :=
  match validateUser st dto.email dto.password with
  | none => .error (.unauthorized "Credenciales inválidas")
  | some account =>
    if !account.isActive then
      .error (.forbidden "La cuenta está desactivada")
    else
      .ok { success := true, user := account.toResponse
            token := generateToken account }

/-- The dto mutation and `CreateUserDto` construction inside
`AuthService.register`: for role COMPANY the companyId is overwritten
with a fresh ObjectId string, then the create payload is assembled with
`isActive := true` and a fresh ObjectId string as `userId`. -/
def registerCreateDto (dto : RegisterDto)
    (freshCompanyId freshUserId : ObjectId) : CreateUserDto :=
  let dto :=
    if dto.role == UserRole.COMPANY then
      { dto with companyId := some freshCompanyId.toStr }
    else dto
  { firstName := dto.firstName
    lastName := dto.lastName
    email := dto.email
    password := dto.password
    role := dto.role
    companyId := dto.companyId
    isActive := true
    userId := some freshUserId.toStr }

/-- `AuthService.register`: reject a duplicate email; for role COMPANY
overwrite the dto companyId with a fresh ObjectId string; then delegate
to `UsersService.create` and return a token with the stripped user.
`freshCompanyId`, `freshUserId` and `freshMongoId` stand for the ObjectIds
generated during the call. -/
def register (st : AuthState) (dto : RegisterDto)
    (freshCompanyId freshUserId freshMongoId : ObjectId) :
    Except HttpError (AuthState × JwtPayload × UserResponse) :=
  if (st.users.find? (fun u => u.email == dto.email)).isSome then
    .error (.badRequest "El correo electrónico ya está registrado")
  else
    match UsersService.create st.users
        (registerCreateDto dto freshCompanyId freshUserId)
        freshMongoId.toStr with
    | .error e => .error e
    | .ok (users, user) =>
      .ok ({ st with users := users },
           generateToken (.user user), (Account.user user).toResponse)

end AuthService

/-- The decoded token the JWT guard attaches as `req.user`, with the
fields the expense controller reads (`_id`, `sub`, `companyId`); each is
optional because the decoded payload may carry either id field. -/
structure ReqUser where
  _id : Option String
  sub : Option String
  companyId : Option String
deriving DecidableEq, Repr

/-- `ApprovalDto` as used by the expense approval/rejection endpoints: the
approver id (rewritable by the controller) and the rejection reason. -/
structure ApprovalDto where
  userId : Option String
  reason : Option String
deriving DecidableEq, Repr

namespace ExpenseController

/-- The `ApprovalDto` mutation performed by
`ExpenseController.approveInvoice` before delegating to the service: use
`req.user._id` when truthy, else `req.user.sub` when truthy, else keep the
body `userId` (also when `req.user` is absent). -/
def approveInvoiceDto (user : Option ReqUser) (dto : ApprovalDto) :
    ApprovalDto :=
  match user with
  | some u =>
    if truthy u._id then { dto with userId := u._id }
    else if truthy u.sub then { dto with userId := u.sub }
    else dto
  | none => dto

/-- The `ApprovalDto` mutation performed by
`ExpenseController.rejectInvoice` (the source duplicates the approve
logic verbatim). -/
def rejectInvoiceDto (user : Option ReqUser) (dto : ApprovalDto) :
    ApprovalDto :=
  match user with
  | some u =>
    if truthy u._id then { dto with userId := u._id }
    else if truthy u.sub then { dto with userId := u.sub }
    else dto
  | none => dto

end ExpenseController

/-- Invoice lifecycle statuses (draft → pending → approved/rejected). -/
inductive InvoiceStatus where
  | DRAFT
  | PENDING
  | APPROVED
  | REJECTED
deriving DecidableEq, Repr

/-- A persisted invoice record, restricted to the fields the rejection
workflow touches: id, status, optional rejection reason. -/
structure Invoice where
  _id : String
  status : InvoiceStatus
  rejectionReason : Option String
deriving DecidableEq, Repr

namespace InvoiceService

/-- Modelled from the spec: the body of `InvoiceService.rejectInvoice` is
not under src/ (only its caller `InvoiceController.rejectInvoice`, which
forwards `body.rejectionReason`, is). Per the spec, the workflow is "a
status-transition check (reject requires a reason; approval stamps an
approver id)" over a document store, "recording actor identity and
optional reason", with validation failures raised as bad-request errors
and missing records as 404: a falsy reason is a validation error;
otherwise the invoice is looked up (404 when absent) and stored with
status REJECTED and the supplied reason. -/
def rejectInvoice (store : List Invoice) (id : String)
    (rejectionReason : Option String) :
    Except HttpError (List Invoice) :=
  if !truthy rejectionReason then
    .error (.badRequest "Se requiere un motivo de rechazo")
  else
    match store.find? (fun inv => inv._id == id) with
    | none => .error (.notFound ("Factura con ID " ++ id ++ " no encontrada"))
    | some _ =>
      .ok (store.map (fun inv =>
        if inv._id == id then
          { inv with status := .REJECTED, rejectionReason := rejectionReason }
        else inv))

end InvoiceService

/-- A persisted expense record, restricted to the fields the
approval/rejection workflow touches: id, companyId, status, approver id,
optional rejection reason. -/
structure Expense where
  _id : String
  companyId : Option String
  status : InvoiceStatus
  approvedBy : Option String
  rejectionReason : Option String
deriving DecidableEq, Repr

namespace ExpenseService

/-- Modelled from the spec: the body of `ExpenseService.rejectInvoice` is
not under src/ (only its caller `ExpenseController.rejectInvoice`, which
forwards the stamped `ApprovalDto` and the caller companyId, is). Per the
spec, "reject requires a reason" and the transition records "actor
identity and optional reason": a falsy reason is a validation error;
otherwise the expense is looked up (404 when absent) and stored with
status REJECTED, the actor id from the dto, and the supplied reason. -/
def rejectInvoice (store : List Expense) (id : String) (dto : ApprovalDto) :
    Except HttpError (List Expense) :=
  if !truthy dto.reason then
    .error (.badRequest "Se requiere un motivo de rechazo")
  else
    match store.find? (fun e => e._id == id) with
    | none => .error (.notFound ("Gasto con ID " ++ id ++ " no encontrado"))
    | some _ =>
      .ok (store.map (fun e =>
        if e._id == id then
          { e with status := .REJECTED, approvedBy := dto.userId
                   rejectionReason := dto.reason }
        else e))

end ExpenseService

/-! ## Helper lemmas -/

theorem hexChars_length (k n : Nat) : (hexChars k n).length = k := by
  induction k generalizing n with
  | zero => rfl
  | succ k ih => simp [hexChars, ih]

theorem ObjectId.toStr_ne_empty (o : ObjectId) : o.toStr ≠ "" := by
  intro h
  have hd : (hexChars 24 o.val) = ([] : List Char) :=
    congrArg String.data h
  have hl := hexChars_length 24 o.val
  rw [hd] at hl
  simp at hl

theorem ObjectId.toStr_truthy (o : ObjectId) :
    truthy (some o.toStr) = true := by
  simp [truthy, bne_iff_ne]
  exact o.toStr_ne_empty

theorem bcrypt.hash_length (pw : String) :
    (bcrypt.hash pw 10).length = 7 + pw.length := by
  simp [bcrypt.hash]
  rfl

theorem bcrypt.hash_ne_plain (pw : String) : bcrypt.hash pw 10 ≠ pw := by
  intro h
  have := bcrypt.hash_length pw
  rw [h] at this
  omega

/-- The store `UsersService.remove` leaves behind: the new store on
success, the old one when an exception was thrown. -/
def removeResultingStore (store : UserStore)
    (r : Except HttpError UserStore) : UserStore :=
  match r with
  | .ok s => s
  | .error _ => store

/-! ## Claim theorems -/

/-- C1: in `ExpenseController.approveInvoice` and
`ExpenseController.rejectInvoice`, the approver identity stamped into the
`ApprovalDto` follows the three-way fallback: a truthy `req.user._id` is
used; otherwise a truthy `req.user.sub` is used; otherwise the `userId`
already in the body is left unchanged. -/
theorem approver_identity_three_way_fallback
    (user : Option ReqUser) (dto : ApprovalDto) :
    (ExpenseController.approveInvoiceDto user dto).userId =
      (match user with
       | some u =>
         if truthy u._id then u._id
         else if truthy u.sub then u.sub
         else dto.userId
       | none => dto.userId)
    ∧ (ExpenseController.rejectInvoiceDto user dto).userId =
      (match user with
       | some u =>
         if truthy u._id then u._id
         else if truthy u.sub then u.sub
         else dto.userId
       | none => dto.userId) := by
  constructor <;> cases user <;>
    simp only [ExpenseController.approveInvoiceDto,
      ExpenseController.rejectInvoiceDto] <;>
    split_ifs <;> rfl

/-- C2: rejecting an invoice or an expense requires a reason: a reject
request with a falsy reason fails with a bad-request validation error, and
every record a successful rejection stores under the rejected id carries
the supplied reason (and status REJECTED; the expense record also carries
the actor id). -/
theorem reject_requires_reason
    (invStore : List Invoice) (expStore : List Expense) (id : String)
    (reason : Option String) (dto : ApprovalDto) :
    (truthy reason = false →
      InvoiceService.rejectInvoice invStore id reason =
        .error (.badRequest "Se requiere un motivo de rechazo"))
    ∧ (∀ store2, InvoiceService.rejectInvoice invStore id reason = .ok store2 →
        ∀ r ∈ store2, r._id = id →
          r.rejectionReason = reason ∧ r.status = .REJECTED)
    ∧ (truthy dto.reason = false →
      ExpenseService.rejectInvoice expStore id dto =
        .error (.badRequest "Se requiere un motivo de rechazo"))
    ∧ (∀ store2, ExpenseService.rejectInvoice expStore id dto = .ok store2 →
        ∀ r ∈ store2, r._id = id →
          r.rejectionReason = dto.reason ∧ r.status = .REJECTED
            ∧ r.approvedBy = dto.userId) := by
  refine ⟨?_, ?_, ?_, ?_⟩
  · intro hfalse
    simp [InvoiceService.rejectInvoice, hfalse]
  · intro store2 hok r hr hid
    unfold InvoiceService.rejectInvoice at hok
    split at hok
    · exact absurd hok (by simp)
    · split at hok
      · exact absurd hok (by simp)
      · rw [Except.ok.injEq] at hok
        subst hok
        obtain ⟨e, he, rfl⟩ := List.mem_map.1 hr
        by_cases h : e._id == id
        · simp [h]
        · rw [if_neg h] at hid ⊢
          exact absurd (beq_iff_eq.2 hid) h
  · intro hfalse
    simp [ExpenseService.rejectInvoice, hfalse]
  · intro store2 hok r hr hid
    unfold ExpenseService.rejectInvoice at hok
    split at hok
    · exact absurd hok (by simp)
    · split at hok
      · exact absurd hok (by simp)
      · rw [Except.ok.injEq] at hok
        subst hok
        obtain ⟨e, he, rfl⟩ := List.mem_map.1 hr
        by_cases h : e._id == id
        · simp [h]
        · rw [if_neg h] at hid ⊢
          exact absurd (beq_iff_eq.2 hid) h

/-- C3: a `CreateUserDto` with role COMPANY and a falsy companyId makes
`UsersService.create` raise `BadRequestException` (the duplicate-email
check, also a `BadRequestException`, may fire first) and persists nothing;
an `UpdateUserDto` with role COMPANY and a falsy companyId makes
`UsersService.update` on an existing user raise `BadRequestException` and
leave the store unchanged. -/
theorem company_role_requires_companyId
    (store : UserStore) (dto : CreateUserDto) (freshId : String)
    (id : String) (patch : UpdateUserDto) (u : UserDocument)
    (hrole : dto.role = UserRole.COMPANY)
    (hcid : truthy dto.companyId = false)
    (hfind : store.find? (fun x => x._id == id) = some u)
    (hprole : patch.role = some UserRole.COMPANY)
    (hpcid : truthy patch.companyId = false) :
    (∃ msg, UsersService.create store dto freshId =
      .error (.badRequest msg))
    ∧ resultingStore store (UsersService.create store dto freshId) = store
    ∧ UsersService.update store id patch =
        .error
          (.badRequest "Se requiere companyId para usuarios de tipo COMPANY")
    ∧ resultingStore store (UsersService.update store id patch) = store := by
  have hcreate : ∃ msg, UsersService.create store dto freshId =
      .error (.badRequest msg) := by
    rcases h : store.find? (fun x => x.email == dto.email) with _ | w
    · exact ⟨"Se requiere companyId para usuarios de tipo COMPANY",
        by simp [UsersService.create, h, hrole, hcid]⟩
    · exact ⟨"El email ya está registrado", by simp [UsersService.create, h]⟩
  have hupdate : UsersService.update store id patch =
      .error
        (.badRequest "Se requiere companyId para usuarios de tipo COMPANY") := by
    simp [UsersService.update, hfind, hprole, hpcid]
  obtain ⟨msg, hmsg⟩ := hcreate
  exact ⟨⟨msg, hmsg⟩, by rw [hmsg]; rfl,
    hupdate, by rw [hupdate]; rfl⟩

/-- Witness for C3 at concrete inputs. -/
theorem company_role_requires_companyId_witness :
    UsersService.update
      [⟨"u1", "Ana", "Diaz", "a@x.com", "pw", UserRole.USER, none, true⟩]
      "u1" { role := some UserRole.COMPANY } =
      .error
        (.badRequest "Se requiere companyId para usuarios de tipo COMPANY") :=
  (company_role_requires_companyId
    [⟨"u1", "Ana", "Diaz", "a@x.com", "pw", UserRole.USER, none, true⟩]
    ⟨"Bea", "Ruiz", "b@x.com", "pw", UserRole.COMPANY, none, true, none⟩
    "id9" "u1" { role := some UserRole.COMPANY }
    ⟨"u1", "Ana", "Diaz", "a@x.com", "pw", UserRole.USER, none, true⟩
    rfl rfl rfl rfl rfl).2.2.1

/-- C4: a duplicate email makes `UsersService.create` and
`AuthService.register` raise `BadRequestException`, leaving the stored
users unchanged (`register` propagates no state on error by
construction). -/
theorem email_must_be_unique
    (store : UserStore) (dto : CreateUserDto) (freshId : String)
    (st : AuthState) (rdto : RegisterDto) (c uo m : ObjectId)
    (u w : UserDocument)
    (hfind : store.find? (fun x => x.email == dto.email) = some u)
    (hfind2 : st.users.find? (fun x => x.email == rdto.email) = some w) :
    UsersService.create store dto freshId =
      .error (.badRequest "El email ya está registrado")
    ∧ resultingStore store (UsersService.create store dto freshId) = store
    ∧ AuthService.register st rdto c uo m =
        .error (.badRequest "El correo electrónico ya está registrado") := by
  have h1 : UsersService.create store dto freshId =
      .error (.badRequest "El email ya está registrado") := by
    simp [UsersService.create, hfind]
  exact ⟨h1, by rw [h1]; rfl,
    by simp [AuthService.register, hfind2]⟩

/-- Witness for C4 at concrete inputs. -/
theorem email_must_be_unique_witness :
    AuthService.register
      ⟨[⟨"u1", "Ana", "Diaz", "a@x.com", "pw", UserRole.USER, none, true⟩], []⟩
      ⟨"Ana", "Diaz", "a@x.com", "secret", UserRole.USER, none⟩
      ⟨0⟩ ⟨1⟩ ⟨2⟩ =
      .error (.badRequest "El correo electrónico ya está registrado") :=
  (email_must_be_unique
    [⟨"u1", "Ana", "Diaz", "a@x.com", "pw", UserRole.USER, none, true⟩]
    ⟨"Ana", "Diaz", "a@x.com", "secret", UserRole.USER, none, true, none⟩
    "id9"
    ⟨[⟨"u1", "Ana", "Diaz", "a@x.com", "pw", UserRole.USER, none, true⟩], []⟩
    ⟨"Ana", "Diaz", "a@x.com", "secret", UserRole.USER, none⟩
    ⟨0⟩ ⟨1⟩ ⟨2⟩
    ⟨"u1", "Ana", "Diaz", "a@x.com", "pw", UserRole.USER, none, true⟩
    ⟨"u1", "Ana", "Diaz", "a@x.com", "pw", UserRole.USER, none, true⟩
    rfl rfl).2.2

/-- C5: in the company-aware `UsersService`, a COMPANY caller targeting a
stored user of a different company gets `ForbiddenException` from
`findOne`, `update` and `remove`, and the store is unchanged. -/
theorem company_scoped_access_forbidden
    (store : UserStore) (id : String) (patch : UpdateUserDto)
    (cu tu : UserDocument)
    (hrole : cu.role = UserRole.COMPANY)
    (hfind : store.find? (fun x => x._id == id) = some tu)
    (hne : tu.companyId ≠ cu.companyId) :
    (∃ m, UsersServiceV2.findOne store id (some cu) =
      .error (.forbidden m))
    ∧ (∃ m, UsersServiceV2.update store id patch (some cu) =
        .error (.forbidden m))
    ∧ resultingStore store (UsersServiceV2.update store id patch (some cu))
        = store
    ∧ (∃ m, UsersServiceV2.remove store id (some cu) =
        .error (.forbidden m))
    ∧ removeResultingStore store (UsersServiceV2.remove store id (some cu))
        = store := by
  have hviol : companyViolation (some cu) tu = true := by
    simp [companyViolation, hrole, bne_iff_ne, hne]
  have h1 : UsersServiceV2.findOne store id (some cu) =
      .error (.forbidden "You can only view users from your company") := by
    simp [UsersServiceV2.findOne, hfind, hviol]
  have h2 : UsersServiceV2.update store id patch (some cu) =
      .error (.forbidden "You can only view users from your company") := by
    simp [UsersServiceV2.update, h1]
  have h3 : UsersServiceV2.remove store id (some cu) =
      .error (.forbidden "You can only view users from your company") := by
    simp [UsersServiceV2.remove, h1]
  exact ⟨⟨_, h1⟩, ⟨_, h2⟩, by rw [h2]; rfl,
    ⟨_, h3⟩, by rw [h3]; rfl⟩

/-- Witness for C5 at concrete inputs. -/
theorem company_scoped_access_forbidden_witness :
    ∃ m, UsersServiceV2.findOne
      [⟨"u1", "Ana", "Diaz", "a@x.com", "pw", UserRole.USER, some "c1", true⟩]
      "u1"
      (some ⟨"u2", "Bea", "Ruiz", "b@x.com", "pw", UserRole.COMPANY,
        some "c2", true⟩) = .error (.forbidden m) :=
  (company_scoped_access_forbidden
    [⟨"u1", "Ana", "Diaz", "a@x.com", "pw", UserRole.USER, some "c1", true⟩]
    "u1" {}
    ⟨"u2", "Bea", "Ruiz", "b@x.com", "pw", UserRole.COMPANY, some "c2", true⟩
    ⟨"u1", "Ana", "Diaz", "a@x.com", "pw", UserRole.USER, some "c1", true⟩
    rfl rfl (by decide)).1

/-- C6: an id absent from the store makes `UsersService.findOne`,
`UsersService.update` and `UsersService.remove` raise
`NotFoundException`, an absent email makes `UsersService.findByEmail`
raise `NotFoundException`, and the store is unchanged. -/
theorem missing_records_yield_not_found
    (store : UserStore) (id email : String) (patch : UpdateUserDto)
    (hid : store.find? (fun u => u._id == id) = none)
    (hemail : store.find? (fun u => u.email == email) = none) :
    UsersService.findOne store id =
      .error (.notFound ("Usuario con ID " ++ id ++ " no encontrado"))
    ∧ UsersService.update store id patch =
        .error (.notFound ("Usuario con ID " ++ id ++ " no encontrado"))
    ∧ resultingStore store (UsersService.update store id patch) = store
    ∧ UsersService.remove store id =
        .error (.notFound ("Usuario con ID " ++ id ++ " no encontrado"))
    ∧ removeResultingStore store (UsersService.remove store id) = store
    ∧ UsersService.findByEmail store email =
        .error
          (.notFound ("Usuario con email " ++ email ++ " no encontrado")) := by
  have h2 : UsersService.update store id patch =
      .error (.notFound ("Usuario con ID " ++ id ++ " no encontrado")) := by
    simp [UsersService.update, hid]
  have h4 : UsersService.remove store id =
      .error (.notFound ("Usuario con ID " ++ id ++ " no encontrado")) := by
    simp [UsersService.remove, hid]
  exact ⟨by simp [UsersService.findOne, hid], h2,
    by rw [h2]; rfl, h4, by rw [h4]; rfl,
    by simp [UsersService.findByEmail, hemail]⟩

/-- Witness for C6 at concrete inputs. -/
theorem missing_records_yield_not_found_witness :
    UsersService.findOne [] "u1" =
      .error (.notFound ("Usuario con ID " ++ "u1" ++ " no encontrado")) :=
  (missing_records_yield_not_found [] "u1" "a@x.com" {} rfl rfl).1

/-- C7: `AuthService.login` raises `UnauthorizedException` exactly when
`validateUser` yields null (no user or provider matches the email, or the
password does not match the stored hash), raises `ForbiddenException`
when an account is found but inactive, and otherwise returns success with
the stripped account and a token. -/
theorem login_dispatch (st : AuthState) (dto : LoginDto) :
    (AuthService.validateUser st dto.email dto.password = none →
      AuthService.login st dto =
        .error (.unauthorized "Credenciales inválidas"))
    ∧ (∀ a, AuthService.validateUser st dto.email dto.password = some a →
        a.isActive = false →
        AuthService.login st dto =
          .error (.forbidden "La cuenta está desactivada"))
    ∧ (∀ a, AuthService.validateUser st dto.email dto.password = some a →
        a.isActive = true →
        AuthService.login st dto =
          .ok ⟨true, a.toResponse, AuthService.generateToken a⟩) := by
  refine ⟨?_, ?_, ?_⟩
  · intro h
    simp [AuthService.login, h]
  · intro a h hia
    simp [AuthService.login, h, hia]
  · intro a h hia
    simp [AuthService.login, h, hia]

/-- Witness for C7 at concrete inputs: unknown email, inactive account,
and a successful login. -/
theorem login_dispatch_witness :
    AuthService.login ⟨[], []⟩ ⟨"a@x.com", "pw"⟩ =
      .error (.unauthorized "Credenciales inválidas")
    ∧ AuthService.login
        ⟨[⟨"u1", "Ana", "Diaz", "a@x.com", bcrypt.hash "pw" 10,
           UserRole.USER, none, false⟩], []⟩ ⟨"a@x.com", "pw"⟩ =
        .error (.forbidden "La cuenta está desactivada")
    ∧ AuthService.login
        ⟨[⟨"u1", "Ana", "Diaz", "a@x.com", bcrypt.hash "pw" 10,
           UserRole.USER, none, true⟩], []⟩ ⟨"a@x.com", "pw"⟩ =
        .ok ⟨true,
          (Account.user ⟨"u1", "Ana", "Diaz", "a@x.com", bcrypt.hash "pw" 10,
            UserRole.USER, none, true⟩).toResponse,
          AuthService.generateToken (Account.user ⟨"u1", "Ana", "Diaz",
            "a@x.com", bcrypt.hash "pw" 10, UserRole.USER, none, true⟩)⟩ :=
  ⟨(login_dispatch ⟨[], []⟩ ⟨"a@x.com", "pw"⟩).1 rfl,
   (login_dispatch _ ⟨"a@x.com", "pw"⟩).2.1
     (Account.user ⟨"u1", "Ana", "Diaz", "a@x.com", bcrypt.hash "pw" 10,
       UserRole.USER, none, false⟩) (by decide) rfl,
   (login_dispatch _ ⟨"a@x.com", "pw"⟩).2.2
     (Account.user ⟨"u1", "Ana", "Diaz", "a@x.com", bcrypt.hash "pw" 10,
       UserRole.USER, none, true⟩) (by decide) rfl⟩

/-- C8: `UsersService.create` persists the bcrypt hash of the submitted
password, never the password itself (the hash differs from every
plaintext), and `UsersService.update` re-hashes a (truthy) patch
password before storing it. -/
theorem passwords_stored_hashed
    (store : UserStore) (dto : CreateUserDto) (freshId : String)
    (id : String) (patch : UpdateUserDto) (p : String)
    (store2 store3 : UserStore) (u v : UserDocument)
    (hok : UsersService.create store dto freshId = .ok (store2, u))
    (hp : patch.password = some p) (hpne : p ≠ "")
    (hok2 : UsersService.update store id patch = .ok (store3, v)) :
    u.password = bcrypt.hash dto.password 10
    ∧ u.password ≠ dto.password
    ∧ store2 = store ++ [u]
    ∧ v.password = bcrypt.hash p 10 := by
  have ht : truthy patch.password = true := by
    simp [hp, truthy, bne_iff_ne, hpne]
  unfold UsersService.create at hok
  split at hok
  · exact absurd hok (by simp)
  · split at hok
    · exact absurd hok (by simp)
    · simp only [Except.ok.injEq, Prod.mk.injEq] at hok
      obtain ⟨h2, h3⟩ := hok
      unfold UsersService.update at hok2
      split at hok2
      · exact absurd hok2 (by simp)
      · split at hok2
        · exact absurd hok2 (by simp)
        · simp only [ht, if_true, Except.ok.injEq, Prod.mk.injEq] at hok2
          obtain ⟨h4, h5⟩ := hok2
          refine ⟨?_, ?_, ?_, ?_⟩
          · rw [← h3]
          · rw [← h3]
            exact bcrypt.hash_ne_plain dto.password
          · rw [← h2, ← h3]
          · rw [← h5]
            simp [applyUpdate, hp]

/-- Witness for C8 at concrete inputs. -/
theorem passwords_stored_hashed_witness :
    (⟨"id9", "Bea", "Ruiz", "b@x.com", bcrypt.hash "secret" 10,
      UserRole.USER, none, true⟩ : UserDocument).password ≠ "secret" :=
  (passwords_stored_hashed
    [⟨"u1", "Ana", "Diaz", "a@x.com", "old", UserRole.USER, none, true⟩]
    ⟨"Bea", "Ruiz", "b@x.com", "secret", UserRole.USER, none, true, none⟩
    "id9" "u1" { password := some "new" } "new"
    [⟨"u1", "Ana", "Diaz", "a@x.com", "old", UserRole.USER, none, true⟩,
     ⟨"id9", "Bea", "Ruiz", "b@x.com", bcrypt.hash "secret" 10,
      UserRole.USER, none, true⟩]
    [⟨"u1", "Ana", "Diaz", "a@x.com", bcrypt.hash "new" 10,
      UserRole.USER, none, true⟩]
    ⟨"id9", "Bea", "Ruiz", "b@x.com", bcrypt.hash "secret" 10,
      UserRole.USER, none, true⟩
    ⟨"u1", "Ana", "Diaz", "a@x.com", bcrypt.hash "new" 10,
      UserRole.USER, none, true⟩
    rfl rfl (by decide) rfl).2.1

/-- C9: `AuthService.register` overwrites the companyId of a COMPANY
registration with a fresh ObjectId string (24 hex chars, hence truthy)
before calling `UsersService.create`, so the companyId-required
bad-request branch of `create` is unreachable through `register`, and
every user registered with role COMPANY carries the fresh companyId. -/
theorem register_company_companyId_unreachable
    (st : AuthState) (dto : RegisterDto) (c uo m : ObjectId)
    (hrole : dto.role = UserRole.COMPANY) :
    AuthService.register st dto c uo m ≠
      .error
        (.badRequest "Se requiere companyId para usuarios de tipo COMPANY")
    ∧ (∀ st2 tok ur,
        AuthService.register st dto c uo m = .ok (st2, tok, ur) →
          ur.companyId = some c.toStr) := by
  have ht := ObjectId.toStr_truthy c
  have hdto : (AuthService.registerCreateDto dto c uo).companyId =
      some c.toStr := by
    simp [AuthService.registerCreateDto, hrole]
  have htr : truthy (AuthService.registerCreateDto dto c uo).companyId
      = true := by
    rw [hdto]; exact ht
  have key : ∀ (store : UserStore) (dto2 : CreateUserDto) (fid : String),
      truthy dto2.companyId = true →
      (UsersService.create store dto2 fid ≠
        .error (.badRequest
          "Se requiere companyId para usuarios de tipo COMPANY"))
      ∧ (∀ s2 u2, UsersService.create store dto2 fid = .ok (s2, u2) →
          u2.companyId = dto2.companyId) := by
    intro store dto2 fid htr2
    unfold UsersService.create
    by_cases hm : ((store.find? (fun u => u.email == dto2.email)).isSome
        = true)
    · rw [if_pos hm]
      constructor
      · intro hc
        simp only [Except.error.injEq, HttpError.badRequest.injEq] at hc
        exact absurd hc (by decide)
      · intro s2 u2 hc
        exact absurd hc (by simp)
    · rw [if_neg hm, if_neg (by simp [htr2])]
      constructor
      · intro hc
        exact absurd hc (by simp)
      · intro s2 u2 hc
        simp only [Except.ok.injEq, Prod.mk.injEq] at hc
        rw [← hc.2]
        simp [htr2]
  rcases h : st.users.find? (fun x => x.email == dto.email) with _ | w
  · constructor
    · intro hcontra
      unfold AuthService.register at hcontra
      rw [h] at hcontra
      simp only [Option.isSome_none, Bool.false_eq_true,
        if_false] at hcontra
      rcases hcr : UsersService.create st.users
          (AuthService.registerCreateDto dto c uo) m.toStr with e | pr
      · rw [hcr] at hcontra
        simp only [Except.error.injEq] at hcontra
        exact (key st.users _ m.toStr htr) |>.1 (hcontra ▸ hcr)
      · rw [hcr] at hcontra
        exact absurd hcontra (by simp)
    · intro st2 tok ur hok
      unfold AuthService.register at hok
      rw [h] at hok
      simp only [Option.isSome_none, Bool.false_eq_true, if_false] at hok
      rcases hcr : UsersService.create st.users
          (AuthService.registerCreateDto dto c uo) m.toStr with e | pr
      · rw [hcr] at hok
        exact absurd hok (by simp)
      · rw [hcr] at hok
        obtain ⟨users2, user2⟩ := pr
        simp only [Except.ok.injEq, Prod.mk.injEq] at hok
        rw [← hok.2.2]
        have := (key st.users _ m.toStr htr).2 users2 user2 hcr
        simpa [Account.toResponse, hdto] using this
  · constructor
    · intro hcontra
      unfold AuthService.register at hcontra
      rw [h] at hcontra
      simp only [Option.isSome_some, if_true, Except.error.injEq,
        HttpError.badRequest.injEq] at hcontra
      exact absurd hcontra (by decide)
    · intro st2 tok ur hok
      unfold AuthService.register at hok
      rw [h] at hok
      simp at hok

/-- Witness for C9 at a concrete input. -/
theorem register_company_companyId_unreachable_witness :
    AuthService.register ⟨[], []⟩
      ⟨"Ana", "Diaz", "a@x.com", "pw", UserRole.COMPANY, none⟩
      ⟨5⟩ ⟨6⟩ ⟨7⟩ ≠
      .error
        (.badRequest "Se requiere companyId para usuarios de tipo COMPANY") :=
  (register_company_companyId_unreachable ⟨[], []⟩
    ⟨"Ana", "Diaz", "a@x.com", "pw", UserRole.COMPANY, none⟩
    ⟨5⟩ ⟨6⟩ ⟨7⟩ rfl).1

/-- C10: `AuthService.validateUser` gives the user collection precedence:
when a stored user has the email, the result is determined solely by that
user record (the user on a password match, null otherwise), it is
unchanged under any replacement of the provider collection, and it is
never a provider. -/
theorem validateUser_user_precedence
    (st : AuthState) (email password : String) (u : UserDocument)
    (hfind : st.users.find? (fun x => x.email == email) = some u) :
    AuthService.validateUser st email password =
      (if bcrypt.compare password u.password then
        some (.user u) else none)
    ∧ (∀ providers2,
        AuthService.validateUser ⟨st.users, providers2⟩ email password =
          AuthService.validateUser st email password)
    ∧ (∀ p, AuthService.validateUser st email password ≠
        some (.provider p)) := by
  have h1 : AuthService.validateUser st email password =
      (if bcrypt.compare password u.password then
        some (.user u) else none) := by
    simp [AuthService.validateUser, hfind]
  refine ⟨h1, ?_, ?_⟩
  · intro ps
    rw [h1]
    simp [AuthService.validateUser, hfind]
  · intro p hc
    rw [h1] at hc
    by_cases hcmp : bcrypt.compare password u.password
    · rw [if_pos hcmp] at hc
      exact absurd hc (by simp)
    · rw [if_neg hcmp] at hc
      exact absurd hc (by simp)

/-- Witness for C10 at a concrete input: a provider shares the email of a
stored user whose password is different, and authentication still fails
with null rather than falling through to the provider. -/
theorem validateUser_user_precedence_witness :
    AuthService.validateUser
      ⟨[⟨"u1", "Ana", "Diaz", "a@x.com", bcrypt.hash "pw" 10,
         UserRole.USER, none, true⟩],
       [⟨"p1", "Eve", "Lopez", "a@x.com", bcrypt.hash "other" 10,
         UserRole.PROVIDER, none, true⟩]⟩ "a@x.com" "other" =
      (if bcrypt.compare "other" (bcrypt.hash "pw" 10) then
        some (.user ⟨"u1", "Ana", "Diaz", "a@x.com", bcrypt.hash "pw" 10,
          UserRole.USER, none, true⟩)
      else none) :=
  (validateUser_user_precedence
    ⟨[⟨"u1", "Ana", "Diaz", "a@x.com", bcrypt.hash "pw" 10,
       UserRole.USER, none, true⟩],
     [⟨"p1", "Eve", "Lopez", "a@x.com", bcrypt.hash "other" 10,
       UserRole.PROVIDER, none, true⟩]⟩ "a@x.com" "other"
    ⟨"u1", "Ana", "Diaz", "a@x.com", bcrypt.hash "pw" 10,
      UserRole.USER, none, true⟩ (by decide)).1

/-- Witness for C2 at concrete inputs: a reject with no reason fails for
both collections, and a successful invoice rejection stores the reason. -/
theorem reject_requires_reason_witness :
    InvoiceService.rejectInvoice [] "f1" none =
      .error (.badRequest "Se requiere un motivo de rechazo")
    ∧ ExpenseService.rejectInvoice [] "e1" ⟨some "u1", none⟩ =
      .error (.badRequest "Se requiere un motivo de rechazo")
    ∧ (⟨"f1", InvoiceStatus.REJECTED, some "late"⟩ : Invoice).rejectionReason
        = some "late" := by
  refine ⟨?_, ?_, ?_⟩
  · exact (reject_requires_reason [] [] "f1" none ⟨some "u1", none⟩).1 rfl
  · exact (reject_requires_reason [] [] "e1" none ⟨some "u1", none⟩).2.2.1 rfl
  · exact ((reject_requires_reason
        [⟨"f1", InvoiceStatus.PENDING, none⟩] [] "f1" (some "late")
        ⟨some "u1", none⟩).2.1
      [⟨"f1", InvoiceStatus.REJECTED, some "late"⟩] rfl
      ⟨"f1", InvoiceStatus.REJECTED, some "late"⟩ (by decide) rfl).1
